import Mathlib

/-!
Verification development for the cursorcodeai orchestration engine
(apps/api/app/ai/{router,llm,nodes,orchestrator}.py and
apps/api/app/services/billing.py).

The Python sources are shallowly embedded below.  Python runtime failures
(AttributeError, TypeError, NameError, IndexError, UnboundLocalError) are
represented as values of `PyErr`, and every fallible computation returns
`Except PyErr _`.  Dictionary lookups become association-list lookups, and
Python truthiness of strings and lists is made explicit at each use site.

Two load-bearing facts of the source are modelled exactly and justified by
scope lemmas proved below:

* `app/services/logging.py` defines `audit_log` as a plain function (the
  Celery task is the separately named `audit_log_task`), so every call of
  the form `audit_log.delay(...)` raises
  AttributeError: function object has no attribute delay.
  Such calls sit inside `get_model_for_agent` (router.py line 78, before
  the return), inside `get_routed_llm` and `stream_routed_llm` (llm.py),
  and inside the success path of `deduct_credits` / `refund_credits`
  (billing.py, inside their try blocks, after the UPDATE has been
  committed).

* `orchestrator.py` references the names `rag_inject` (line 235, defined
  only as a local of `build_agent_graph`), `send_email_task` and
  `shared_task` (never imported), none of which exist at module scope, and
  reads the local `project` in an except branch that can run before
  `project` was ever assigned.
-/

deriving instance DecidableEq for Except

/-- Python exception values that the embedded code can raise. -/
inductive PyErr where
  | attributeError (msg : String)
  | typeError (msg : String)
  | nameError (nm : String)
  | unboundLocalError (nm : String)
  | indexError
  | valueError (msg : String)
  deriving Repr, DecidableEq

/-- The AttributeError raised by every `audit_log.delay(...)` call:
`audit_log` in app/services/logging.py is a plain function, not a Celery
task, so it has no `delay` attribute. -/
def auditDelayErr : PyErr :=
  PyErr.attributeError "function object has no attribute delay"

/-- Message roles, as carried by langchain message objects.  An
`AIMessage` has role `assistant`. -/
inductive Role where
  | system
  | user
  | assistant
  | tool
  deriving Repr, DecidableEq

/-- A conversation message: role, content, and the tool calls requested by
the model (empty for non-assistant messages). -/
structure Message where
  role : Role
  content : String
  tool_calls : List String := []
  deriving Repr, DecidableEq

/-- Shorthand for an `AIMessage` without tool calls. -/
def aiMsg (content : String) : Message := { role := Role.assistant, content := content }

/-- Tools are identified by their function names (tools.py). -/
abbrev Tool := String

/-! ## router.py: the Model Router -/

/-- The three routable model settings (core/config.py lines 146-148 give
each a non-empty default, but the embedding keeps them abstract). -/
structure Settings where
  DEFAULT_XAI_MODEL : String
  FAST_REASONING_MODEL : String
  FAST_NON_REASONING_MODEL : String
  deriving Repr, DecidableEq

/-- Python `a or b` on strings: the left operand unless it is falsy
(empty). -/
def pyOr (a b : String) : String := if a = "" then b else a

/-- router.py lines 20-24: the `MODELS` registry, an association list from
registry key to concrete model identifier. -/
def MODELS (st : Settings) : List (String × String) :=
  [("default_reasoning", pyOr st.DEFAULT_XAI_MODEL "grok-4-latest"),
   ("fast_reasoning", pyOr st.FAST_REASONING_MODEL "grok-4-1-fast-reasoning"),
   ("fast_non_reasoning", pyOr st.FAST_NON_REASONING_MODEL "grok-4-1-fast-non-reasoning")]

/-- router.py lines 29-42: `AGENT_MODEL_PREFERENCE`. -/
def AGENT_MODEL_PREFERENCE : List (String × String) :=
  [("architect", "default_reasoning"),
   ("product", "default_reasoning"),
   ("frontend", "fast_reasoning"),
   ("backend", "fast_reasoning"),
   ("security", "fast_reasoning"),
   ("qa", "fast_non_reasoning"),
   ("devops", "fast_non_reasoning")]

/-- router.py lines 59-73: the preference computation of
`get_model_for_agent` (the pure part before the registry lookup): tier
escalation, complexity override, then the unconditional starter
downgrade. -/
def routePreference (agent_type user_tier task_complexity : String) : String :=
  let preferred :=
    if (user_tier = "premier" ∨ user_tier = "ultra") ∧
        (task_complexity = "medium" ∨ task_complexity = "high") then
      "default_reasoning"
    else
      (AGENT_MODEL_PREFERENCE.lookup agent_type).getD "fast_non_reasoning"
  let preferred :=
    if task_complexity = "high" ∧ preferred ≠ "default_reasoning" then
      "default_reasoning"
    else preferred
  if user_tier = "starter" ∧ preferred = "default_reasoning" then
    "fast_non_reasoning"
  else preferred

/-- router.py line 75: `MODELS.get(preferred, MODELS["fast_non_reasoning"])`. -/
def routeSelected (st : Settings) (agent_type user_tier task_complexity : String) : String :=
  ((MODELS st).lookup (routePreference agent_type user_tier task_complexity)).getD
    (pyOr st.FAST_NON_REASONING_MODEL "grok-4-1-fast-non-reasoning")

/-- router.py lines 45-92: `get_model_for_agent`.  A truthy, recognised
`force_model` returns early (line 55-56, before any audit call).
Otherwise the preference and selection are computed and then line 78
evaluates `audit_log.delay`, which raises AttributeError before the
function can return `selected` (line 92). -/
def get_model_for_agent (st : Settings) (agent_type user_tier task_complexity : String)
    (force_model : Option String := none) : Except PyErr String :=
  let forced :=
    match force_model with
    | some f => if f ≠ "" ∧ f ∈ (MODELS st).map Prod.snd then some f else none
    | none => none
  match forced with
  | some f => Except.ok f
  | none =>
    let _selected := routeSelected st agent_type user_tier task_complexity
    Except.error auditDelayErr

/-! ## llm.py: the LLM factory -/

/-- The value returned by `get_llm`: the inner `call` coroutine function.
It is a plain function object (no `ainvoke` attribute, not an async
iterable); the flags record those two facts, which decide the behaviour
of `llm.ainvoke(...)` in nodes.py and of `async for ... in
llm_callable(messages)` in llm.py. -/
structure LLMCallable where
  model_name : String
  temperature : Nat
  hasAinvokeAttr : Bool := false
  isAsyncIterable : Bool := false
  deriving Repr, DecidableEq

/-- llm.py lines 25-86: `get_llm`, decorated with `@lru_cache`.  The
cache wrapper hashes every argument before the body runs; a Python list
passed for `tools` is unhashable, so the call raises TypeError before any
model invocation.  With `tools=None` the arguments hash and the inner
`call` function is returned. -/
def get_llm (model_name : String) (temperature : Nat)
    (tools : Option (List Tool)) : Except PyErr LLMCallable :=
  match tools with
  | some _ => Except.error (PyErr.typeError "unhashable type: list")
  | none => Except.ok { model_name := model_name, temperature := temperature }

/-- Counters for how far an LLM-factory call chain got. -/
structure CallTrace where
  get_llm_calls : Nat
  gateway_calls : Nat
  deriving Repr, DecidableEq

/-- llm.py lines 92-152: `get_routed_llm`.  Line 104 calls
`get_model_for_agent` (no force_model parameter exists here), which
raises AttributeError from its audit emission, so control never reaches
the `get_llm` call on line 124 nor the audit call on line 132. -/
def get_routed_llm (st : Settings) (agent_type : String)
    (user_tier : String := "starter") (task_complexity : String := "medium")
    (tools : Option (List Tool) := none) :
    Except PyErr LLMCallable × CallTrace :=
  match get_model_for_agent st agent_type user_tier task_complexity none with
  | Except.error e => (Except.error e, { get_llm_calls := 0, gateway_calls := 0 })
  | Except.ok model_name =>
    let temperature := if agent_type = "architect" ∨ agent_type = "security" ∨
        agent_type = "product" then 0 else if agent_type = "frontend" ∨
        agent_type = "backend" then 1 else 2
    (get_llm model_name temperature tools,
     { get_llm_calls := 1, gateway_calls := 0 })

/-! ## llm.py: the streaming entry point -/

/-- Result of iterating the async generator `stream_routed_llm`: the
chunks it yielded, and whether it finished normally or raised. -/
structure StreamGenRun where
  chunks : List String
  result : Except PyErr Unit
  trace : CallTrace
  deriving Repr, DecidableEq

/-- llm.py lines 158-217: `stream_routed_llm`.  Line 171 calls
`get_model_for_agent` outside the try block, so the AttributeError from
the audit emission propagates out of the generator before anything is
yielded; the except branch on lines 215-217 (which would yield the error
text as an ordinary content chunk and end the generator normally) can
never run.  Were line 171 to succeed, line 177 would call `get_llm`
(TypeError if `tools` is a list), and the `async for` on line 208 would
raise TypeError inside the try because the value returned by `get_llm`
is a coroutine function, not an async iterable; that TypeError would be
caught and converted into the single chunk
`[ERROR] Streaming failed: ...`, after which the generator ends
normally. -/
def stream_routed_llm (st : Settings) (agent_type : String)
    (user_tier : String := "starter") (task_complexity : String := "medium")
    (tools : Option (List Tool) := none) : StreamGenRun :=
  match get_model_for_agent st agent_type user_tier task_complexity none with
  | Except.error e =>
    { chunks := [], result := Except.error e,
      trace := { get_llm_calls := 0, gateway_calls := 0 } }
  | Except.ok model_name =>
    match get_llm model_name 2 tools with
    | Except.error e =>
      { chunks := [], result := Except.error e,
        trace := { get_llm_calls := 1, gateway_calls := 0 } }
    | Except.ok llm_callable =>
      if llm_callable.isAsyncIterable then
        { chunks := ["[DONE]"], result := Except.ok (),
          trace := { get_llm_calls := 1, gateway_calls := 1 } }
      else
        { chunks := ["[ERROR] Streaming failed: async for requires an object with __aiter__ method, got coroutine"],
          result := Except.ok (),
          trace := { get_llm_calls := 1, gateway_calls := 0 } }

/-! ## nodes.py: the generic agent node -/

/-- tools.py lines 221-227: the per-agent tool subsets, each a non-empty
Python list. -/
def AGENT_TOOLS : List (String × List Tool) :=
  [("architect", ["search_latest_stack_trends"]),
   ("frontend", ["fetch_ui_component_example"]),
   ("backend", ["execute_code_snippet"]),
   ("security", ["scan_code_for_vulnerabilities"]),
   ("qa", ["execute_code_snippet"]),
   ("devops", ["generate_ci_cd_pipeline"])]

/-- tools.py lines 229-235: the full fallback tool list. -/
def allTools : List Tool :=
  ["search_latest_stack_trends", "execute_code_snippet",
   "fetch_ui_component_example", "scan_code_for_vulnerabilities",
   "generate_ci_cd_pipeline"]

/-- nodes.py line 116: `AGENT_TOOLS.get(agent_type, tools)` — a list in
every case. -/
def agentToolsOf (agent_type : String) : List Tool :=
  (AGENT_TOOLS.lookup agent_type).getD allTools

/-- The `AgentState` TypedDict of orchestrator.py lines 36-49, restricted
to the fields the embedded code reads or writes.  `stage_outputs`
collects the per-stage structured results (the dynamic keys `architect`,
`security`, `qa`, `frontend_code`, ... of the source). -/
structure AgentState where
  project_id : String
  user_id : String
  org_id : String
  prompt : String
  messages : List Message := []
  errors : List String := []
  total_tokens_used : Nat := 0
  stage_outputs : List (String × String) := []
  deriving Repr, DecidableEq

/-- The partial state update a node returns (a Python dict with a subset
of the state keys present). -/
structure NodeUpdate where
  messages : List Message := []
  errors : Option (List String) := none
  total_tokens_used : Option Nat := none
  stage_output : Option (String × String) := none
  deriving Repr, DecidableEq

/-- nodes.py lines 98-184: one attempt of the `agent_node` body (the
function the tenacity decorator wraps).  The system prompt and tool
subset lookups succeed; line 117 then calls `get_routed_llm`, which
raises AttributeError out of the model router before the try block on
line 129 is entered, so the attempt always raises and the LLM, metering,
parsing and error-recording code below line 129 never runs.  (Were line
117 to return, the first statement of the try, `llm.ainvoke(...)`, would
raise AttributeError because `get_llm` returns a plain function; that
exception would be caught by the except branch on lines 178-184, which
appends to `state.errors` and returns normally.) -/
def agent_node_attempt (st : Settings) (agent_type : String) (s : AgentState) :
    Except PyErr NodeUpdate × CallTrace :=
  match get_routed_llm st agent_type "starter" "medium" (some (agentToolsOf agent_type)) with
  | (Except.error e, t) => (Except.error e, t)
  | (Except.ok llm, t) =>
    if llm.hasAinvokeAttr then
      (Except.ok { messages := s.messages }, t)
    else
      (Except.ok
        { messages := [aiMsg ("Agent " ++ agent_type ++ " failed: function object has no attribute ainvoke")],
          errors := some (s.errors ++ [agent_type ++ ": function object has no attribute ainvoke"]) }, t)

/-- nodes.py lines 92-97: the tenacity wait policy
`wait_exponential(multiplier=1, min=4, max=30)`: the sleep after attempt
`n` is `min 30 (max 4 (2 ^ n))`. -/
def tenacityWait (attempt_number : Nat) : Nat := min 30 (max 4 (2 ^ attempt_number))

/-- nodes.py lines 92-97: `stop_after_attempt(4)` with `reraise=True`
over a deterministic body: a successful attempt returns at once; a
failing body fails identically on all four attempts and the final
exception is re-raised.  Returns the outcome and the number of attempts
made. -/
def tenacityRetry {α : Type} (attempts : Nat) (body : Except PyErr α) :
    Except PyErr α × Nat :=
  match body with
  | Except.ok v => (Except.ok v, 1)
  | Except.error e => (Except.error e, attempts)

/-- nodes.py lines 92-184: `agent_node` as invoked at runtime — the
retry-wrapped body.  Returns the final outcome, the number of attempts
made, and the call trace of the last attempt. -/
def agent_node (st : Settings) (agent_type : String) (s : AgentState) :
    Except PyErr NodeUpdate × Nat × CallTrace :=
  let (body, t) := agent_node_attempt st agent_type s
  let (r, n) := tenacityRetry 4 body
  (r, n, t)

/-! ## orchestrator.py: module scope, conditional router, graph topology -/

/-- The names bound at module scope of orchestrator.py (its imports,
lines 10-29, and its top-level definitions).  Notably absent:
`rag_inject` (a local of `build_agent_graph`, yet referenced on line
235), `send_email_task` (used on lines 290, 326, 387), `shared_task`
(line 303) and `json` (also unimported in nodes.py). -/
def orchestratorModuleNames : List String :=
  ["logging", "asyncio", "uuid4", "StateGraph", "END", "ToolNode",
   "BaseMessage", "AIMessage", "HumanMessage", "ChatPromptTemplate",
   "settings", "async_session_factory", "Project", "ProjectStatus",
   "deduct_credits", "refund_credits", "send_deployment_success_email",
   "audit_log", "report_grok_usage", "agent_node", "tools",
   "stream_routed_llm", "logger", "AgentState", "get_project_memory",
   "tool_node", "should_continue", "error_handler", "build_agent_graph",
   "stream_orchestration", "run_agent_graph_task"]

/-- orchestrator.py lines 90-96: `should_continue`, the Conditional
Router.  `state["errors"]` truthy routes to the error handler; otherwise
`state["messages"][-1]` raises IndexError when `messages` is empty;
otherwise an assistant message with truthy `tool_calls` routes to the
tool node, and anything else advances. -/
def should_continue (errors : List String) (messages : List Message) :
    Except PyErr String :=
  if errors ≠ [] then Except.ok "error_handler"
  else
    match messages.getLast? with
    | none => Except.error PyErr.indexError
    | some last_msg =>
      if last_msg.role = Role.assistant ∧ last_msg.tool_calls ≠ [] then
        Except.ok "tools"
      else Except.ok "next"

/-- orchestrator.py lines 102-126: the Error Handler refunds the
hard-coded amount 10 (which coincides with the `estimated_cost = 10`
reserved by both drivers). -/
def error_handler_refund_amount : Nat := 10

/-- orchestrator.py lines 205 and 315: `estimated_cost = 10`, the amount
reserved by `deduct_credits` at run start. -/
def estimated_cost : Nat := 10

/-- orchestrator.py lines 132-188: the nodes added to the `StateGraph`
by `build_agent_graph`. -/
def buildGraphNodes : List String :=
  ["rag_inject", "architect", "frontend", "backend", "security", "qa",
   "devops", "tools", "error_handler"]

/-- orchestrator.py lines 178-183: the target map of every agent stage
conditional edge: decision `tools` goes to the tool node, decision
`next` goes to the node named `next_agent`, decision `error_handler`
goes to the error handler. -/
def conditionalEdgeTarget (decision : String) : Option String :=
  [("tools", "tools"), ("next", "next_agent"),
   ("error_handler", "error_handler")].lookup decision

/-! ## billing.py: the Credit Gate -/

/-- billing.py lines 88-150: `deduct_credits` with `amount = 10`.  With
insufficient balance the guarded UPDATE matches no row and the function
returns `(False, "Insufficient credits or user not found")` before any
commit.  With sufficient balance the UPDATE is committed (the balance
drops by 10) and the subsequent `audit_log.delay` raises AttributeError,
which the `except Exception` branch converts into `(False, str(e))` —
the already committed deduction stands, yet the caller is told the
reservation failed.  The returned triple is (success flag, message,
balance delta). -/
def deduct_credits (sufficient : Bool) : Bool × String × Int :=
  if sufficient then
    (false, "function object has no attribute delay", -10)
  else
    (false, "Insufficient credits or user not found", 0)

/-- billing.py lines 153-198: `refund_credits` with `amount = 10`: the
UPDATE adding 10 credits is committed, then `audit_log.delay` raises
AttributeError inside the try; the except branch returns `(False,
str(e))`, but the committed refund stands.  The triple is (success flag,
message, balance delta). -/
def refund_credits : Bool × String × Int :=
  (false, "function object has no attribute delay", 10)

/-! ## orchestrator.py: the streaming Execution Driver -/

/-- Observable outcome of one `stream_orchestration` run: everything the
generator yields, whether an `AgentState` was created, which agent
stages completed, how often the Error Handler node ran, the refund
amounts issued, the token totals reported to metering, the net balance
change, and whether the generator finished normally or raised. -/
structure StreamRun where
  output : List String
  stateCreated : Bool
  executedStages : List String
  errorHandlerRuns : Nat
  refunds : List Nat
  usageReports : List Nat
  balanceDelta : Int
  result : Except PyErr Unit
  deriving Repr, DecidableEq

/-- orchestrator.py line 250: the partial update built for a streamed
stage — a dict holding only the `messages` key (in particular it never
carries `total_tokens_used`). -/
def streamStageUpdate (current : List Message) (full_response : String) : NodeUpdate :=
  { messages := current ++ [aiMsg full_response] }

/-- Accumulator for the driver loop of lines 232-252. -/
structure LoopAcc where
  output : List String
  messages : List Message
  total_tokens_used : Nat
  errors : List String
  executedStages : List String
  deriving Repr, DecidableEq

/-- orchestrator.py lines 238-252: one agent-stage iteration of the
streaming loop: yield the start marker, forward every chunk of
`stream_routed_llm` (no `tools` argument, so none is passed), then yield
the end marker and apply the messages-only update.  If the generator
raises, the exception propagates with only the chunks yielded so far
emitted. -/
def streamStageStep (st : Settings) (user_tier : String) (node : String)
    (acc : LoopAcc) : LoopAcc × Except PyErr Unit :=
  let start := "[AGENT_START]" ++ node.toUpper ++ "[/AGENT_START]"
  let gen := stream_routed_llm st node user_tier "medium" none
  match gen.result with
  | Except.error e =>
    ({ acc with output := acc.output ++ [start] ++ gen.chunks }, Except.error e)
  | Except.ok _ =>
    let full_response := String.join gen.chunks
    let update := streamStageUpdate acc.messages full_response
    ({ acc with
        output := acc.output ++ [start] ++ gen.chunks ++ ["[AGENT_END]"],
        messages := update.messages,
        executedStages := acc.executedStages ++ [node] }, Except.ok ())

/-- orchestrator.py lines 233-252: one iteration of the node loop.  The
first list element is `"rag_inject"`, and line 235 then evaluates the
bare name `rag_inject`, which is not bound at module scope (see
`rag_inject_not_in_module_scope` below): NameError.  Every other element
takes the streaming branch. -/
def streamNodeStep (st : Settings) (user_tier : String) (node : String)
    (acc : LoopAcc) : LoopAcc × Except PyErr Unit :=
  if node = "rag_inject" then
    if orchestratorModuleNames.contains "rag_inject" then
      (acc, Except.ok ())
    else
      (acc, Except.error (PyErr.nameError "rag_inject"))
  else streamStageStep st user_tier node acc

/-- orchestrator.py line 233: the fixed node schedule of the streaming
driver. -/
def streamNodeList : List String :=
  ["rag_inject", "architect", "frontend", "backend", "security", "qa", "devops"]

/-- The driver loop: run the schedule in order, stopping at the first
exception. -/
def streamLoop (st : Settings) (user_tier : String) :
    List String → LoopAcc → LoopAcc × Except PyErr Unit
  | [], acc => (acc, Except.ok ())
  | node :: rest, acc =>
    match streamNodeStep st user_tier node acc with
    | (acc2, Except.ok _) => streamLoop st user_tier rest acc2
    | (acc2, Except.error e) => (acc2, Except.error e)

/-- orchestrator.py lines 283-297: the except branch of the streaming
driver when the exception was raised inside the loop (before line 255
assigned the local `project`): `refund_credits` runs (its committed
UPDATE adds 10; its failure return value is ignored), then line 286
reads the never-assigned local `project` and raises UnboundLocalError,
so the `[ERROR]` yield on line 296 is never reached. -/
def streamExceptFromLoop (acc : LoopAcc) (delta : Int) : StreamRun :=
  { output := acc.output
    stateCreated := true
    executedStages := acc.executedStages
    errorHandlerRuns := 0
    refunds := [estimated_cost]
    usageReports := []
    balanceDelta := delta + refund_credits.2.2
    result := Except.error (PyErr.unboundLocalError "project") }

/-- orchestrator.py lines 254-297: the bookkeeping after a loop that
finished normally.  If the project row is found, lines 255-266 update it
and send the success email, line 269 reports
`current_state.get("total_tokens_used", 5000)` (the key is present, so
the accumulated counter itself) to metering, and line 275 then evaluates
`audit_log.delay`, raising AttributeError inside the try before
`[COMPLETE]` is yielded; the except branch refunds and, with `project`
now assigned and truthy, marks it failed and calls the unimported
`send_email_task`: NameError.  If the project row is not found, line 264
reads `project.title` on None and raises AttributeError; the except
branch refunds, skips the falsy `project`, and hits the same
NameError. -/
def streamSuccessBookkeeping (acc : LoopAcc) (delta : Int)
    (projectFound : Bool) : StreamRun :=
  if projectFound then
    { output := acc.output
      stateCreated := true
      executedStages := acc.executedStages
      errorHandlerRuns := 0
      refunds := [estimated_cost]
      usageReports := [acc.total_tokens_used]
      balanceDelta := delta + refund_credits.2.2
      result := Except.error (PyErr.nameError "send_email_task") }
  else
    { output := acc.output
      stateCreated := true
      executedStages := acc.executedStages
      errorHandlerRuns := 0
      refunds := [estimated_cost]
      usageReports := []
      balanceDelta := delta + refund_credits.2.2
      result := Except.error (PyErr.nameError "send_email_task") }

/-- orchestrator.py lines 194-297: `stream_orchestration`.  The credit
gate runs first (lines 207-216): on a falsy success flag the generator
yields the insufficient-credits rejection and returns — no
`AgentState` is built, no node runs, nothing is refunded.  Only a
truthy flag reaches lines 218-297 (graph construction, the fresh
`AgentState` of lines 221-229, and the node loop inside the try);
`deduct_credits` never produces a truthy flag, but the branch is
embedded faithfully. -/
def stream_orchestration (st : Settings) (user_tier : String)
    (sufficient projectFound : Bool) : StreamRun :=
  let (ok, msg, delta) := deduct_credits sufficient
  if ok then
    let acc0 : LoopAcc :=
      { output := [], messages := [], total_tokens_used := 0, errors := [],
        executedStages := [] }
    match streamLoop st user_tier streamNodeList acc0 with
    | (acc, Except.error _) => streamExceptFromLoop acc delta
    | (acc, Except.ok _) => streamSuccessBookkeeping acc delta projectFound
  else
    { output := ["[ERROR] Insufficient credits: " ++ msg]
      stateCreated := false
      executedStages := []
      errorHandlerRuns := 0
      refunds := []
      usageReports := []
      balanceDelta := delta
      result := Except.ok () }

/-! ## orchestrator.py: the background (Celery) Execution Driver -/

/-- Observable outcome of `run_agent_graph_task` up to its terminal
exception. -/
structure TaskRun where
  stateCreated : Bool
  executedStages : List String
  refunds : List Nat
  balanceDelta : Int
  result : Except PyErr Unit
  deriving Repr, DecidableEq

/-- orchestrator.py lines 303-395: the gate section of
`run_agent_graph_task`.  On a falsy success flag, line 326 calls the
unimported name `send_email_task`: NameError propagates before the
intended `raise ValueError(msg)` on line 331 — still an immediate
rejection before any state is created, node runs, or refund is issued.
On a truthy flag the graph would be built and invoked (which
`deduct_credits` never allows; the dead branch is marked by running the
same loop embedding as the streaming driver, whose first stage raises
inside `graph.ainvoke`, followed by the except branch of lines 375-393:
refund, then UnboundLocalError on `project`). -/
def run_agent_graph_task (_st : Settings) (sufficient : Bool) : TaskRun :=
  let (ok, _msg, delta) := deduct_credits sufficient
  if ok then
    { stateCreated := true
      executedStages := []
      refunds := [estimated_cost]
      balanceDelta := delta + refund_credits.2.2
      result := Except.error (PyErr.unboundLocalError "project") }
  else
    { stateCreated := false
      executedStages := []
      refunds := []
      balanceDelta := delta
      result := Except.error (PyErr.nameError "send_email_task") }

/-! ## Spec-side definition and fixtures -/

/-- The Conditional Router as the spec words it (section 4.4): a total
function returning one of the three decisions, used to compare
`should_continue` against the specified behaviour. -/
def routerSpecDecision (errors : List String) (messages : List Message) : String :=
  if errors ≠ [] then "error_handler"
  else
    match messages.getLast? with
    | some m =>
      if m.role = Role.assistant ∧ m.tool_calls ≠ [] then "tools" else "next"
    | none => "next"

/-- The model settings with the defaults of core/config.py lines
146-148. -/
def defaultSettings : Settings :=
  { DEFAULT_XAI_MODEL := "grok-beta"
    FAST_REASONING_MODEL := "grok-beta-fast"
    FAST_NON_REASONING_MODEL := "grok-beta-fast" }

/-- A concrete fresh run state (the spec scenario prompt). -/
def exampleState : AgentState :=
  { project_id := "p1", user_id := "u1", org_id := "o1",
    prompt := "Build a todo app" }

/-- Scope fact: `rag_inject` is not bound at module scope of
orchestrator.py (it is a local of `build_agent_graph`), so line 235
raises NameError. -/
theorem rag_inject_not_in_module_scope :
    orchestratorModuleNames.contains "rag_inject" = false := by decide

/-- Scope fact: `send_email_task` is never imported by orchestrator.py
(lines 290, 326 and 387 raise NameError when reached). -/
theorem send_email_task_not_in_module_scope :
    orchestratorModuleNames.contains "send_email_task" = false := by decide

/-- Scope fact: the per-agent tool subsets of nodes.py are all non-empty
Python lists (tools.py lines 221-235), as is the fallback list. -/
theorem agent_tool_subsets_nonempty :
    (∀ p ∈ AGENT_TOOLS, p.2 ≠ []) ∧ allTools ≠ [] := by decide

/-! ## Claim theorems -/

/-- Claim C1 (code_bug evidence).  The claimed temporal property — once a
stage appends to `errors` only the Error Handler may run, and its refund
fires exactly once with the reserved amount — can never fire in the
code: (i) the graph built by `build_agent_graph` routes every agent
stage decision `next` to the node name `next_agent`, which is not a node
of the graph, and (ii) in every streaming run the Error Handler node
executes zero times and no agent stage ever completes (the credit gate
always reports failure, and even past the gate the loop dies at the
unbound name `rag_inject`), so `errors` can never become non-empty and
the refund that does occur is issued by the except branch of the driver,
not by the Error Handler. -/
theorem c1_error_routing_never_fires :
    conditionalEdgeTarget "next" = some "next_agent" ∧
    "next_agent" ∉ buildGraphNodes ∧
    ∀ (st : Settings) (tier : String) (suff found : Bool),
      (stream_orchestration st tier suff found).errorHandlerRuns = 0 ∧
      (stream_orchestration st tier suff found).executedStages = [] := by
  refine ⟨rfl, by decide, ?_⟩
  intro st tier suff found
  cases suff <;> cases found <;> exact ⟨rfl, rfl⟩

/-- Claim C2 (code_bug evidence).  Every `agent_node` invocation raises
`AttributeError` (the audit emission inside the model router) before the
try block that contains the model-gateway call: the bounded retry
(`stop_after_attempt(4)`, `reraise=True`) makes all 4 attempts and then
re-raises that exception to the caller, `get_llm` and the gateway are
never reached (trace counters 0), and the node produces no update — in
particular nothing is recorded into `state.errors` by the node or by any
driver.  Exceptions from the gateway or from structured-output parsing
could never trigger a retry: they occur inside the try block whose
except branch returns normally. -/
theorem c2_retry_never_protects_gateway :
    ∀ (st : Settings) (agent_type : String) (s : AgentState),
      agent_node st agent_type s =
        (Except.error auditDelayErr, 4,
          { get_llm_calls := 0, gateway_calls := 0 }) := by
  intro st agent_type s
  rfl

/-- Claim C3 (code_bug evidence).  `stream_routed_llm` raises
`AttributeError` out of the generator before yielding anything: the
router call on llm.py line 171 sits outside the try block, so no chunk
at all — in particular no error marker carrying the error text — is
emitted when the streaming call fails, for every agent type, tier,
complexity and tools argument. -/
theorem c3_stream_failure_emits_no_marker :
    ∀ (st : Settings) (agent_type user_tier task_complexity : String)
      (tools : Option (List Tool)),
      stream_routed_llm st agent_type user_tier task_complexity tools =
        { chunks := [], result := Except.error auditDelayErr,
          trace := { get_llm_calls := 0, gateway_calls := 0 } } := by
  intro st agent_type user_tier task_complexity tools
  rfl

/-- Claim C4 (code_bug evidence).  No streaming run ever reports any
token usage (every run ends at the credit gate, and even the embedded
post-gate paths report at most the untouched counter), and the stage
update dict built by the streaming driver (orchestrator.py line 250)
carries only the `messages` key — never `total_tokens_used` — so a
completed run would report the initial 0 regardless of actual usage. -/
theorem c4_no_token_accounting :
    (∀ (st : Settings) (tier : String) (suff found : Bool),
      (stream_orchestration st tier suff found).usageReports = []) ∧
    ∀ (current : List Message) (full_response : String),
      (streamStageUpdate current full_response).total_tokens_used = none := by
  constructor
  · intro st tier suff found
    cases suff <;> cases found <;> rfl
  · intro current full_response
    rfl

/-- Claim C5 (code_bug evidence).  For `agent_type = "qa"`, `user_tier =
"premier"`, `task_complexity = "high"` and no forced model, the routing
computation of router.py lines 59-75 does select the deepest-reasoning
registry entry (`default_reasoning`, i.e. the DEFAULT_XAI_MODEL), as the
claim states — but `get_model_for_agent` then raises AttributeError at
its audit emission (line 78) and never returns it. -/
theorem c5_premier_high_qa_routing :
    ∀ st : Settings,
      routePreference "qa" "premier" "high" = "default_reasoning" ∧
      routeSelected st "qa" "premier" "high" = pyOr st.DEFAULT_XAI_MODEL "grok-4-latest" ∧
      get_model_for_agent st "qa" "premier" "high" none = Except.error auditDelayErr := by
  intro st
  exact ⟨rfl, rfl, rfl⟩

/-- Claim C6 (code_bug evidence).  For `agent_type = "architect"`,
`user_tier = "starter"`, `task_complexity = "high"` and no forced model,
the routing computation does apply the unconditional starter downgrade
last and selects the fast non-reasoning registry entry, as the claim
states — but `get_model_for_agent` then raises AttributeError at its
audit emission and never returns it. -/
theorem c6_starter_high_architect_routing :
    ∀ st : Settings,
      routePreference "architect" "starter" "high" = "fast_non_reasoning" ∧
      routeSelected st "architect" "starter" "high" =
        pyOr st.FAST_NON_REASONING_MODEL "grok-4-1-fast-non-reasoning" ∧
      get_model_for_agent st "architect" "starter" "high" none = Except.error auditDelayErr := by
  intro st
  exact ⟨rfl, rfl, rfl⟩

/-- Claim C7 counterexample.  The claim quantifies over every pipeline
state, but on the state with empty `errors` and empty `messages` (the
freshly created initial state) `should_continue` does not return any of
the three decisions: `state["messages"][-1]` raises IndexError. -/
theorem c7_counterexample_empty_state :
    should_continue [] [] = Except.error PyErr.indexError := rfl

/-- Claim C7 (amended).  On every state whose `errors` or `messages`
list is non-empty, `should_continue` returns, purely and
deterministically, exactly the decision the spec prescribes: the error
handler whenever `errors` is non-empty (highest priority), else the tool
node when the last message is an assistant message with pending tool
calls, else `next`. -/
theorem c7_router_decision_on_nonempty :
    ∀ (errors : List String) (messages : List Message),
      errors ≠ [] ∨ messages ≠ [] →
      should_continue errors messages = Except.ok (routerSpecDecision errors messages) := by
  intro errors messages h
  by_cases he : errors = []
  · subst he
    have hm : messages ≠ [] := by
      rcases h with h | h
      · exact absurd rfl h
      · exact h
    cases hlast : messages.getLast? with
    | none =>
      exact absurd (List.getLast?_eq_none_iff.mp hlast) hm
    | some m => simp [should_continue, routerSpecDecision, hlast, apply_ite]
  · simp [should_continue, routerSpecDecision, he]

/-- Witness for `c7_router_decision_on_nonempty` at a concrete state
with a non-empty errors list. -/
theorem c7_router_decision_witness :
    (["architect: boom"] ≠ ([] : List String) ∨ ([] : List Message) ≠ []) ∧
    should_continue ["architect: boom"] [] =
      Except.ok (routerSpecDecision ["architect: boom"] []) :=
  ⟨Or.inl (by decide),
    c7_router_decision_on_nonempty ["architect: boom"] [] (Or.inl (by decide))⟩

/-- Claim C8 (code_bug evidence).  Evaluating `agent_node` on the
architect stage at a concrete fresh state: the node raises
AttributeError after 4 attempts without ever invoking the model, so the
branch that would store the raw reply text under the stage key on a JSON
parse failure (nodes.py lines 164-174) is unreachable, and no update —
degraded or otherwise — is produced.  (Even if the model call were
reached, `json`, `uuid4` and `datetime` are unbound in nodes.py, so the
metering line raises NameError inside the try and the outer except
appends to `state.errors`, again contradicting the claim.) -/
theorem c8_parse_fallback_unreachable :
    agent_node defaultSettings "architect" exampleState =
      (Except.error auditDelayErr, 4,
        { get_llm_calls := 0, gateway_calls := 0 }) := rfl

/-- Claim C9.  When the reservation fails for insufficient balance
(`deduct_credits` finds no row with enough credits and reports failure
before any commit), the streaming driver yields exactly one explicit
rejection message and returns normally: no `AgentState` is created, no
stage executes, the Error Handler never runs, no refund is issued, and
the balance is untouched.  The background task likewise creates no
state, runs no node and refunds nothing, rejecting immediately by
raising (a NameError from the unimported `send_email_task`, in place of
the intended `ValueError`). -/
theorem c9_insufficient_reservation_rejects :
    ∀ (st : Settings) (tier : String) (found : Bool),
      stream_orchestration st tier false found =
        { output := ["[ERROR] Insufficient credits: Insufficient credits or user not found"],
          stateCreated := false, executedStages := [], errorHandlerRuns := 0,
          refunds := [], usageReports := [], balanceDelta := 0,
          result := Except.ok () } ∧
      run_agent_graph_task st false =
        { stateCreated := false, executedStages := [], refunds := [],
          balanceDelta := 0,
          result := Except.error (PyErr.nameError "send_email_task") } := by
  intro st tier found
  exact ⟨rfl, rfl⟩

/-- Claim C10 counterexample.  A tool-binding agent-node invocation at a
concrete input does not raise the claimed TypeError from the memoised
`get_llm`: it raises AttributeError (the audit emission inside
`get_model_for_agent`) before `get_llm` is ever called — the trace shows
zero `get_llm` calls. -/
theorem c10_counterexample_no_type_error_in_agent_node :
    (agent_node defaultSettings "frontend" exampleState).1 = Except.error auditDelayErr ∧
    (agent_node defaultSettings "frontend" exampleState).2.2 =
      { get_llm_calls := 0, gateway_calls := 0 } :=
  ⟨rfl, rfl⟩

/-- Claim C10 (amended).  Any call that actually reaches `get_llm` with
a non-empty Python list as its `tools` argument raises TypeError before
any model invocation, because the `lru_cache` wrapper hashes the
arguments and a list is unhashable.  (Agent-node invocations never make
such a call: they fail earlier, see the counterexample.) -/
theorem c10_unhashable_tools_type_error :
    ∀ (model_name : String) (temperature : Nat) (l : List Tool),
      l ≠ [] →
      get_llm model_name temperature (some l) =
        Except.error (PyErr.typeError "unhashable type: list") := by
  intro model_name temperature l _
  rfl

/-- Witness for `c10_unhashable_tools_type_error` at the architect tool
subset. -/
theorem c10_unhashable_tools_witness :
    (["search_latest_stack_trends"] ≠ ([] : List Tool)) ∧
    get_llm "grok-4-latest" 2 (some ["search_latest_stack_trends"]) =
      Except.error (PyErr.typeError "unhashable type: list") :=
  ⟨by decide,
    c10_unhashable_tools_type_error "grok-4-latest" 2 ["search_latest_stack_trends"] (by decide)⟩
